import Mathlib

/-!
Shallow embedding of the OMU-UBYS-BOT core (grade-change detection,
notification generation, session lifecycle, worker/monitoring loop) and
proofs of the specification claims about it.

Source files embedded: `ubys_bot/grade_change_detector.py`,
`ubys_bot/main.py`, `ubys_bot/login.py`, `ubys_bot/config.py`,
`ubys_bot/error_tracker.py`.
-/

namespace UbysBot

/-- A course record as parsed from the student page: a Python dict that may
or may not carry a `"name"` and an `"exams"` entry
(`grade_change_detector.py` reads both with `.get(..., default)`). -/
structure Course where
  name : Option String
  exams : Option (List String)
deriving DecidableEq

/-- `course.get("name", "")` (grade_change_detector.py line 103). -/
def getName (c : Course) : String := c.name.getD ""

/-- `course.get("exams", [])` (grade_change_detector.py lines 111, 115, 116). -/
def getExams (c : Course) : List String := c.exams.getD []

/-- Inserting a key into a Python dict: an existing key keeps its position
and gets the new value (last write wins); a fresh key is appended, so
insertion order is preserved. -/
def dictInsert {α : Type} (k : String) (v : α) : List (String × α) → List (String × α)
  | [] => [(k, v)]
  | (k', v') :: rest => if k' = k then (k, v) :: rest else (k', v') :: dictInsert k v rest

/-- Python dict lookup / `in` test on the association-list model. -/
def lookupD {α : Type} (k : String) : List (String × α) → Option α
  | [] => none
  | (k', v) :: rest => if k' = k then some v else lookupD k rest

/-- `{course.get("name", ""): course for course in courses}`
(grade_change_detector.py lines 103-104): a dict keyed by course name,
duplicate names last-write-wins. -/
def buildDict (cs : List Course) : List (String × Course) :=
  cs.foldl (fun d c => dictInsert (getName c) c d) []

/-- Python `s.split("::")` at the character level: scan left to right,
breaking at each (non-overlapping) occurrence of the two-character
separator `"::"`. -/
def splitOnColons : List Char → List (List Char)
  | [] => [[]]
  | ':' :: ':' :: rest => [] :: splitOnColons rest
  | c :: rest =>
    match splitOnColons rest with
    | [] => [[c]]
    | part :: parts => (c :: part) :: parts

/-- Python `s.strip()`: drop whitespace from both ends. -/
def pyStrip (l : List Char) : List Char :=
  ((l.dropWhile Char.isWhitespace).reverse.dropWhile Char.isWhitespace).reverse

/-- Python `s.startswith(pre)`. -/
def pyStartsWith (pre s : String) : Bool := pre.data.isPrefixOf s.data

/-- Python `"::" in s`: the split produces at least two parts exactly when
the separator occurs. -/
def hasDoubleColon (s : String) : Bool := (splitOnColons s.data).length ≥ 2

/-- Python `s.split("::")[i].strip()` (guarded in the source by `"::" in s`,
which guarantees the index exists for i ≤ 1). -/
def splitPart (s : String) (i : Nat) : String := ⟨pyStrip ((splitOnColons s.data).getD i [])⟩

/-- `s.split('::')[1].strip() if '::' in s else 'Yok'`
(grade_change_detector.py line 156). -/
def examValue (s : String) : String :=
  if hasDoubleColon s then splitPart s 1 else "Yok"

/-- One pass of the loop body of `GradeChangeDetector._compare_exams`
(grade_change_detector.py lines 148-156): the 0 or 1 diff lines appended
for one entry `new_exam` of the new exam list. -/
def examChangeLine (old_exams : List String) (new_exam : String) : List String :=
  if new_exam ∉ old_exams then
    ["Yeni: " ++ new_exam]
  else if new_exam ≠ "" then
    let exam_name := if hasDoubleColon new_exam then splitPart new_exam 0 else new_exam
    match old_exams.find? (fun e => pyStartsWith exam_name e) with
    | some old_exam =>
      if old_exam ≠ "" ∧ old_exam ≠ new_exam then
        ["Güncellendi: " ++ exam_name ++ " (" ++ examValue old_exam ++ " → " ++
          examValue new_exam ++ ")"]
      else []
    | none => []
  else []

/-- `GradeChangeDetector._compare_exams` (grade_change_detector.py
lines 135-158): fold over the new exam list appending diff lines. -/
def compare_exams (old_exams new_exams : List String) : List String :=
  new_exams.foldl (fun changes new_exam => changes ++ examChangeLine old_exams new_exam) []

/-- An element of `changes["new"]`: `{"name": course_name, "exams": ...}`
(grade_change_detector.py lines 109-112). -/
structure NewCourseEntry where
  name : String
  exams : List String
deriving DecidableEq

/-- An element of `changes["updated"]` (grade_change_detector.py
lines 119-124). -/
structure UpdatedEntry where
  name : String
  old_exams : List String
  new_exams : List String
  changes : List String
deriving DecidableEq

/-- The dict returned by `GradeChangeDetector._compare_courses`
(grade_change_detector.py lines 95-100). -/
structure Changes where
  new : List NewCourseEntry
  updated : List UpdatedEntry
  removed : List String
  no_change : List String
deriving DecidableEq

/-- The first loop of `_compare_courses` (grade_change_detector.py
lines 107-126): one pass over the new-course dict, classifying each entry
as new, updated or no_change. -/
def classifyNewCourses (old_dict : List (String × Course)) :
    List (String × Course) → List NewCourseEntry × List UpdatedEntry × List String
  | [] => ([], [], [])
  | (course_name, new_course) :: rest =>
    let (ns, us, ncs) := classifyNewCourses old_dict rest
    match lookupD course_name old_dict with
    | none => (⟨course_name, getExams new_course⟩ :: ns, us, ncs)
    | some old_course =>
      if getExams old_course ≠ getExams new_course then
        (ns, ⟨course_name, getExams old_course, getExams new_course,
              compare_exams (getExams old_course) (getExams new_course)⟩ :: us, ncs)
      else
        (ns, us, course_name :: ncs)

/-- `GradeChangeDetector._compare_courses` (grade_change_detector.py
lines 85-133). -/
def compare_courses (old_courses new_courses : List Course) : Changes :=
  let old_dict := buildDict old_courses
  let new_dict := buildDict new_courses
  let (ns, us, ncs) := classifyNewCourses old_dict new_dict
  { new := ns
    updated := us
    removed := (old_dict.map Prod.fst).filter (fun n => (lookupD n new_dict).isNone)
    no_change := ncs }

/-- All course names occurring in a `Changes` value, one occurrence per
classification entry. -/
def classNames (ch : Changes) : List String :=
  ch.new.map NewCourseEntry.name ++ ch.updated.map UpdatedEntry.name ++
    ch.removed ++ ch.no_change

/-- A per-student record of the grades file `student_grades.json`:
`{"courses": [...], "last_updated": ...}`, both entries read defensively
with `.get` in the source. -/
structure StudentData where
  courses : Option (List Course)
  last_updated : Option String
deriving DecidableEq

/-- One value of the dict returned by `detect_changes`
(grade_change_detector.py lines 188-192):
`{"timestamp": ..., "changes": ..., "courses": ...}`. -/
structure StudentChanges where
  timestamp : String
  changes : Changes
  courses : List Course
deriving DecidableEq

/-- `GradeChangeDetector.detect_changes` (grade_change_detector.py
lines 160-198), with the two files made explicit: `current_grades` is the
content of the grades file and `previous_state` the content of the
persisted changes file.  Returns the per-student change dict together with
the changes-file content after the call (`_save_changes(current_grades)`
runs whenever the grades dict is non-empty; on an empty/falsy grades dict
the function returns `{}` early without saving). -/
def detect_changes (current_grades previous_state : List (String × StudentData)) :
    List (String × StudentChanges) × List (String × StudentData) :=
  if current_grades = [] then ([], previous_state)
  else
    let all_changes := current_grades.filterMap (fun sd =>
      let previous_data := (lookupD sd.1 previous_state).getD ⟨none, none⟩
      let previous_courses := previous_data.courses.getD []
      let current_courses := sd.2.courses.getD []
      if previous_courses ≠ current_courses then
        some (sd.1, ⟨sd.2.last_updated.getD "", compare_courses previous_courses current_courses,
              current_courses⟩)
      else none)
    (all_changes, current_grades)

/-- The `"type"` field of a notification dict built by
`get_notifications` (grade_change_detector.py lines 200-259). -/
inductive NotifType
  | new_course
  | grade_update
  | course_removed
deriving DecidableEq

/-- The `"severity"` field of a notification dict. -/
inductive Severity
  | info
  | warning
  | error
  | critical
deriving DecidableEq

/-- A notification dict appended by `get_notifications`. -/
structure Notification where
  type : NotifType
  student_id : String
  title : String
  message : String
  severity : Severity
deriving DecidableEq

/-- The notification dict appended per new course
(grade_change_detector.py lines 215-221). -/
def newCourseNotification (student_id : String) (course : NewCourseEntry) : Notification :=
  { type := NotifType.new_course
    student_id := student_id
    title := "Yeni ders eklendi: " ++ course.name
    message := course.name ++ " dersine yeni not girişleri başladı. Lütfen kontrol edin."
    severity := Severity.info }

/-- The notification dict appended per exam-level diff line of an updated
course (grade_change_detector.py lines 231-237). -/
def gradeUpdateNotification (student_id : String) (course : UpdatedEntry)
    (change : String) : Notification :=
  { type := NotifType.grade_update
    student_id := student_id
    title := course.name ++ " - " ++ change
    message := course.name ++ " dersinde not güncellendi: " ++ change
    severity := Severity.warning }

/-- The generic notification dict for an updated course without diff lines
(grade_change_detector.py lines 240-246). -/
def genericUpdateNotification (student_id : String) (course : UpdatedEntry) : Notification :=
  { type := NotifType.grade_update
    student_id := student_id
    title := "✏️ " ++ course.name ++ " - Güncelleme geldi!"
    message := course.name ++ " dersinin notunda güncelleme vardır."
    severity := Severity.warning }

/-- The inner branch for one updated course (grade_change_detector.py
lines 225-246): one notification per diff line, or one generic one when
the line list is empty. -/
def updatedNotifications (student_id : String) (course : UpdatedEntry) : List Notification :=
  if course.changes ≠ [] then
    course.changes.map (gradeUpdateNotification student_id course)
  else
    [genericUpdateNotification student_id course]

/-- The notification dict appended per removed course name
(grade_change_detector.py lines 251-257). -/
def removedNotification (student_id course_name : String) : Notification :=
  { type := NotifType.course_removed
    student_id := student_id
    title := "Ders silindi: " ++ course_name
    message := course_name ++ " dersi artık listelerde gözükmüyor."
    severity := Severity.info }

/-- The notifications built for one student's entry of the change dict:
the body of the outer loop of `GradeChangeDetector.get_notifications`
(grade_change_detector.py lines 209-257).  Each `if changes_detail.get(...)`
guard of the source skips an empty list, which emits nothing either way. -/
def notificationsFor (student_id : String) (changes_detail : Changes) : List Notification :=
  (if changes_detail.new ≠ [] then
    changes_detail.new.map (newCourseNotification student_id)
  else []) ++
  (if changes_detail.updated ≠ [] then
    (changes_detail.updated.map (updatedNotifications student_id)).flatten
  else []) ++
  (if changes_detail.removed ≠ [] then
    changes_detail.removed.map (removedNotification student_id)
  else [])

/-- `GradeChangeDetector.get_notifications` (grade_change_detector.py
lines 200-259): run detection, then emit the per-student notifications in
order. -/
def get_notifications (current_grades previous_state : List (String × StudentData)) :
    List Notification :=
  ((detect_changes current_grades previous_state).1.map
    (fun sc => notificationsFor sc.1 sc.2.changes)).flatten

/-- Result of an external call made by `SessionManager`: the Python
callee either returns (`ok`, carrying the truthiness of its return value)
or raises an exception. -/
inductive ExtResult
  | ok (success : Bool)
  | raised
deriving DecidableEq

/-- The observable calls made during one `fetch_student_data` invocation:
the initial `handler.login()` (main.py line 101), the renewal
`self.login_handler.login()` inside `_renew_session` (main.py line 81),
`handler.get_page_content(...)` (main.py line 114) and `handler.close()`
run by the `_get_login_handler` context manager's `finally`
(main.py lines 56-63, login.py lines 225-228). -/
inductive CallEv
  | loginCall
  | renewLoginCall
  | retrieveCall
  | closeCall
deriving DecidableEq

/-- The environment of one `fetch_student_data` invocation: results of the
external calls and the wall-clock readings.  `login_time` is the
`time.time()` stored into `session_start_time` (main.py line 107) and
`renew_check_time` the `time.time()` read inside `_is_session_expired`
(main.py line 71); `session_timeout` is `config.SESSION_TIMEOUT`. -/
structure FetchEnv where
  login_result : ExtResult
  renew_login_result : ExtResult
  retrieve_result : ExtResult
  login_time : Int
  renew_check_time : Int
  session_timeout : Int
deriving DecidableEq

/-- `SessionManager._is_session_expired` (main.py lines 65-71):
`time.time() - self.session_start_time >= config.SESSION_TIMEOUT`. -/
def is_session_expired (now start timeout : Int) : Bool := now - start ≥ timeout

/-- `SessionManager._renew_session` (main.py lines 73-89).  At the call
site `self.login_handler` is always set (main.py line 98), so the guard
reduces to the expiry test; when expired, one `login()` call is made and
its truthiness returned, otherwise `True` without any call. -/
def renew_session (env : FetchEnv) : ExtResult × List CallEv :=
  if is_session_expired env.renew_check_time env.login_time env.session_timeout then
    match env.renew_login_result with
    | ExtResult.raised => (ExtResult.raised, [CallEv.renewLoginCall])
    | ExtResult.ok b => (ExtResult.ok b, [CallEv.renewLoginCall])
  else (ExtResult.ok true, [])

/-- The body of the `with self._get_login_handler() as handler:` block of
`SessionManager.fetch_student_data` (main.py lines 97-120): login, renew
if needed, then retrieve; each step aborts the rest on failure and an
exception anywhere aborts with `raised`. -/
def fetch_body (env : FetchEnv) : ExtResult × List CallEv :=
  match env.login_result with
  | ExtResult.raised => (ExtResult.raised, [CallEv.loginCall])
  | ExtResult.ok false => (ExtResult.ok false, [CallEv.loginCall])
  | ExtResult.ok true =>
    match renew_session env with
    | (ExtResult.raised, evs) => (ExtResult.raised, CallEv.loginCall :: evs)
    | (ExtResult.ok false, evs) => (ExtResult.ok false, CallEv.loginCall :: evs)
    | (ExtResult.ok true, evs) =>
      match env.retrieve_result with
      | ExtResult.raised => (ExtResult.raised, CallEv.loginCall :: evs ++ [CallEv.retrieveCall])
      | ExtResult.ok b => (ExtResult.ok b, CallEv.loginCall :: evs ++ [CallEv.retrieveCall])

/-- `SessionManager.fetch_student_data` (main.py lines 91-120): the
context manager closes the handler on every exit of the body, normal or
exceptional (`finally: handler.close()`). -/
def fetch_student_data (env : FetchEnv) : ExtResult × List CallEv :=
  let (r, evs) := fetch_body env
  (r, evs ++ [CallEv.closeCall])

/-- Outcome of one account's fetch cycle inside the worker's `try` block
(main.py lines 142-150): `manager.fetch_student_data()` returned `True`,
returned `False`, or raised. -/
inductive FetchOutcome
  | success
  | failure
  | raised
deriving DecidableEq

/-- A user configuration dict, fields read with `.get(..., "")`
(main.py lines 132-134). -/
structure UserCfg where
  name : String
  password : String
  sapid : String
deriving DecidableEq

/-- The observable side effects of `process_user` (main.py lines 123-150).
`recordFetchErrorCall` stands for `ErrorTracker.record_fetch_error`
(error_tracker.py lines 72-91); it is part of the event vocabulary so that
its absence from every trace is expressible. -/
inductive WorkerEv
  | processingLog
  | missingConfigWarn
  | fetchFailWarn
  | errorLog
  | recordFetchErrorCall
deriving DecidableEq

/-- `process_user` (main.py lines 123-150): skip when the bot is stopped
or the configuration is incomplete; otherwise run the fetch cycle inside
`try`, logging a warning on failure and logging the exception in the
`except Exception` handler.  The first component is the worker's own
result: `Except.ok ()` means the call returned normally (no exception
escaped to the pool). -/
def process_user (running : Bool) (cfg : UserCfg) (outcome : FetchOutcome) :
    Except Unit Unit × List WorkerEv :=
  if ¬ running then (Except.ok (), [])
  else if cfg.name = "" ∨ cfg.password = "" ∨ cfg.sapid = "" then
    (Except.ok (), [WorkerEv.missingConfigWarn])
  else
    match outcome with
    | FetchOutcome.success => (Except.ok (), [WorkerEv.processingLog])
    | FetchOutcome.failure => (Except.ok (), [WorkerEv.processingLog, WorkerEv.fetchFailWarn])
    | FetchOutcome.raised => (Except.ok (), [WorkerEv.processingLog, WorkerEv.errorLog])

/-- One iteration's worker pool (main.py lines 186-196): one
`process_user` task is submitted per user and awaited. -/
def run_iteration (users : List (UserCfg × FetchOutcome)) :
    List (Except Unit Unit × List WorkerEv) :=
  users.map (fun u => process_user true u.1 u.2)

/-- The succession of iterations of the monitoring loop (main.py
lines 177-210) with the stop flag held true: iteration `i` processes the
accounts scheduled for it, whatever the outcomes of iteration `i - 1`
were. -/
def run_iterations (schedule : List (List (UserCfg × FetchOutcome))) :
    List (List (Except Unit Unit × List WorkerEv)) :=
  schedule.map run_iteration

/-- The live-tunable values of `bot_settings.json` that
`config.load_settings` (config.py lines 20-45) rebinds. -/
structure BotSettings where
  request_delay : Nat
  session_timeout : Nat
  auto_survey : Bool
deriving DecidableEq

/-- The external, editable configuration as a function of time:
`users_at i` is the account list that loading users would yield just
before iteration `i`; `settings_at i` is the settings-file content read by
`config.load_settings()` at the start of iteration `i`. -/
structure LoopEnv where
  users_at : Nat → List UserCfg
  settings_at : Nat → BotSettings

/-- The configuration values one iteration of the monitoring loop
actually uses. -/
structure IterRecord where
  users_used : List UserCfg
  max_workers_used : Nat
  delay_used : Nat
  auto_survey_used : Bool
deriving DecidableEq

/-- The `while _bot_running` loop of `run_monitoring_loop` (main.py
lines 177-210), unrolled for a given number of iterations starting at
index `i`.  Each iteration calls `config.load_settings()`
(main.py line 181) and then reads `config.REQUEST_DELAY` by attribute, so
the delay is the iteration's fresh settings value; `user_list` and
`max_workers` are the values captured before the loop; the auto-survey
flag consulted by the workers is `login.AUTO_SURVEY`, bound once by
`from config import AUTO_SURVEY` (login.py line 10) and never rebound by
`load_settings`, hence the fixed `import_auto_survey`. -/
def monitor_iterations (env : LoopEnv) (import_auto_survey : Bool)
    (user_list : List UserCfg) (max_workers : Nat) : Nat → Nat → List IterRecord
  | _, 0 => []
  | i, Nat.succ n =>
    let settings := env.settings_at i
    { users_used := user_list
      max_workers_used := max_workers
      delay_used := settings.request_delay
      auto_survey_used := import_auto_survey } ::
      monitor_iterations env import_auto_survey user_list max_workers (i + 1) n

/-- `run_monitoring_loop` (main.py lines 153-210): the user list is loaded
once before the loop (line 164) and `max_workers = min(3, len(user_list))`
computed once (line 173); an empty user list aborts before the loop
(lines 166-168).  `iterations` is the number of loop passes before the
stop flag ends the run. -/
def run_monitoring_loop (env : LoopEnv) (import_auto_survey : Bool) (iterations : Nat) :
    List IterRecord :=
  let user_list := env.users_at 0
  if user_list = [] then []
  else monitor_iterations env import_auto_survey user_list (min 3 user_list.length) 0 iterations

/-- C2: `_compare_exams` marks a value change of an existing exam label as
added: with old exams `["Midterm: 70"]` and new exams `["Midterm: 85"]`
the only diff line is `"Yeni: Midterm: 85"` — an added line, not the
changed line `"Midterm: 70 → 85"` the specification demands — because the
first branch tests verbatim membership of the whole entry string.  The
empty-old-list case does mark the entry as added, as specified. -/
theorem compare_exams_changed_value_marked_added :
    compare_exams ["Midterm: 70"] ["Midterm: 85"] = ["Yeni: Midterm: 85"] ∧
    compare_exams [] ["Final: 90"] = ["Yeni: Final: 90"] := by
  decide

/-- `process_user` returns normally whatever the fetch cycle did: the
`try`/`except Exception` at main.py lines 142-150 swallows every error. -/
theorem process_user_ok (running : Bool) (cfg : UserCfg) (oc : FetchOutcome) :
    (process_user running cfg oc).1 = Except.ok () := by
  cases running with
  | false => rfl
  | true =>
    by_cases h : cfg.name = "" ∨ cfg.password = "" ∨ cfg.sapid = ""
    · simp [process_user, h]
    · cases oc <;> simp [process_user, h]

/-- C6: worker errors are isolated.  Every scheduled iteration produces
its results (a failure in one iteration does not stop the next from
starting), each iteration yields one result per submitted account (a
failing worker does not stop its siblings), and no worker propagates an
exception to the pool. -/
theorem worker_errors_isolated (schedule : List (List (UserCfg × FetchOutcome))) :
    (run_iterations schedule).length = schedule.length ∧
    ∀ users ∈ schedule,
      (run_iteration users).length = users.length ∧
      ∀ r ∈ run_iteration users, r.1 = Except.ok () := by
  refine ⟨by simp [run_iterations], ?_⟩
  intro users _
  refine ⟨by simp [run_iteration], ?_⟩
  intro r hr
  simp only [run_iteration, List.mem_map] at hr
  obtain ⟨u, _, rfl⟩ := hr
  exact process_user_ok true u.1 u.2

/-- Witness for `worker_errors_isolated`: a two-account iteration in which
the first worker raises still yields two normally-completed results. -/
theorem worker_errors_isolated_witness :
    (run_iteration [(⟨"u1", "p1", "s1"⟩, FetchOutcome.raised),
                    (⟨"u2", "p2", "s2"⟩, FetchOutcome.success)]).length = 2 ∧
    ∀ r ∈ run_iteration [(⟨"u1", "p1", "s1"⟩, FetchOutcome.raised),
                         (⟨"u2", "p2", "s2"⟩, FetchOutcome.success)],
      r.1 = Except.ok () :=
  (worker_errors_isolated [[(⟨"u1", "p1", "s1"⟩, FetchOutcome.raised),
                            (⟨"u2", "p2", "s2"⟩, FetchOutcome.success)]]).2 _ (by simp)

/-- C7 counterexample: a worker whose fetch cycle fails — whether the
fetch returned a falsy result or raised an exception — only logs; neither
trace contains an `ErrorTracker.record_fetch_error` call, so the failure
is not recorded into the alert store. -/
theorem process_user_failure_not_recorded_cex :
    (process_user true ⟨"20250001", "pw", "sapid"⟩ FetchOutcome.failure).2 =
      [WorkerEv.processingLog, WorkerEv.fetchFailWarn] ∧
    WorkerEv.recordFetchErrorCall ∉
      (process_user true ⟨"20250001", "pw", "sapid"⟩ FetchOutcome.failure).2 ∧
    (process_user true ⟨"20250001", "pw", "sapid"⟩ FetchOutcome.raised).2 =
      [WorkerEv.processingLog, WorkerEv.errorLog] ∧
    WorkerEv.recordFetchErrorCall ∉
      (process_user true ⟨"20250001", "pw", "sapid"⟩ FetchOutcome.raised).2 := by
  decide

/-- C7 amended: a per-account fetch-cycle failure of either kind is caught
and logged at the worker boundary — a falsy fetch result as a warning, a
raised exception as an error log — but no trace of `process_user`, for any
outcome, ever contains a `record_fetch_error` call: the worker never
records failures into the alert store. -/
theorem process_user_failure_only_logged (running : Bool) (cfg : UserCfg)
    (oc : FetchOutcome) :
    WorkerEv.recordFetchErrorCall ∉ (process_user running cfg oc).2 ∧
    (running = true → cfg.name ≠ "" → cfg.password ≠ "" → cfg.sapid ≠ "" →
      (oc = FetchOutcome.failure →
        WorkerEv.fetchFailWarn ∈ (process_user running cfg oc).2) ∧
      (oc = FetchOutcome.raised →
        WorkerEv.errorLog ∈ (process_user running cfg oc).2)) := by
  constructor
  · cases running with
    | false => simp [process_user]
    | true =>
      by_cases hc : cfg.name = "" ∨ cfg.password = "" ∨ cfg.sapid = ""
      · simp [process_user, hc]
      · cases oc <;> simp [process_user, hc]
  · intro hr h1 h2 h3
    subst hr
    constructor
    · intro ho
      subst ho
      simp [process_user, h1, h2, h3]
    · intro ho
      subst ho
      simp [process_user, h1, h2, h3]

/-- Witness for `process_user_failure_only_logged` at concrete workers,
one with a falsy fetch result and one with a raised exception. -/
theorem process_user_failure_only_logged_witness :
    WorkerEv.recordFetchErrorCall ∉
      (process_user true ⟨"u", "p", "s"⟩ FetchOutcome.failure).2 ∧
    WorkerEv.fetchFailWarn ∈ (process_user true ⟨"u", "p", "s"⟩ FetchOutcome.failure).2 ∧
    WorkerEv.recordFetchErrorCall ∉
      (process_user true ⟨"u", "p", "s"⟩ FetchOutcome.raised).2 ∧
    WorkerEv.errorLog ∈ (process_user true ⟨"u", "p", "s"⟩ FetchOutcome.raised).2 :=
  ⟨(process_user_failure_only_logged true ⟨"u", "p", "s"⟩ FetchOutcome.failure).1,
   ((process_user_failure_only_logged true ⟨"u", "p", "s"⟩ FetchOutcome.failure).2
      rfl (by decide) (by decide) (by decide)).1 rfl,
   (process_user_failure_only_logged true ⟨"u", "p", "s"⟩ FetchOutcome.raised).1,
   ((process_user_failure_only_logged true ⟨"u", "p", "s"⟩ FetchOutcome.raised).2
      rfl (by decide) (by decide) (by decide)).2 rfl⟩

/-- C5: whatever the outcomes of the external calls — successful fetch,
failed login, failed renewal, failed retrieval, or an exception raised
anywhere in the body — the session handle acquired by the invocation is
closed exactly once. -/
theorem fetch_student_data_closes_once (env : FetchEnv) :
    (fetch_student_data env).2.count CallEv.closeCall = 1 := by
  obtain ⟨lr, rr, tr, lt, rt, st⟩ := env
  by_cases hexp : is_session_expired rt lt st = true <;>
    rcases lr with (_ | _) | _ <;> rcases rr with (_ | _) | _ <;> rcases tr with (_ | _) | _ <;>
    simp only [fetch_student_data, fetch_body, renew_session, hexp, if_true, if_false,
      Bool.false_eq_true, ite_false, ite_true] <;>
    decide

/-- C4: when the session's age at the expiry check reaches the configured
timeout (and the initial login succeeded, so a session exists), exactly
one renewal login is attempted, the renewal precedes any retrieval call,
and a failed renewal makes the fetch return failure without any retrieval
call being made. -/
theorem session_expiry_single_renewal (env : FetchEnv)
    (hlogin : env.login_result = ExtResult.ok true)
    (hexp : env.renew_check_time - env.login_time ≥ env.session_timeout) :
    (fetch_student_data env).2.count CallEv.renewLoginCall = 1 ∧
    (fetch_student_data env).2.indexOf CallEv.renewLoginCall <
      (fetch_student_data env).2.indexOf CallEv.retrieveCall ∧
    (env.renew_login_result = ExtResult.ok false →
      (fetch_student_data env).1 = ExtResult.ok false ∧
      CallEv.retrieveCall ∉ (fetch_student_data env).2) := by
  obtain ⟨lr, rr, tr, lt, rt, st⟩ := env
  simp only at hlogin hexp
  subst hlogin
  have hexp' : is_session_expired rt lt st = true := by
    simpa [is_session_expired] using hexp
  rcases rr with (_ | _) | _ <;> rcases tr with (_ | _) | _ <;>
    simp only [fetch_student_data, fetch_body, renew_session, hexp', if_true, if_false,
      ite_true, ite_false] <;>
    refine ⟨by decide, by decide, fun hr => ?_⟩ <;> first | (exact ⟨by decide, by decide⟩) | simp at hr

/-- Witness for `session_expiry_single_renewal`: an expired session whose
renewal login fails. -/
theorem session_expiry_single_renewal_witness :
    (1800 : Int) - 0 ≥ 1800 ∧
    (fetch_student_data ⟨ExtResult.ok true, ExtResult.ok false, ExtResult.ok true,
        0, 1800, 1800⟩).2.count CallEv.renewLoginCall = 1 ∧
    (fetch_student_data ⟨ExtResult.ok true, ExtResult.ok false, ExtResult.ok true,
        0, 1800, 1800⟩).1 = ExtResult.ok false :=
  ⟨by decide,
   (session_expiry_single_renewal ⟨ExtResult.ok true, ExtResult.ok false, ExtResult.ok true,
      0, 1800, 1800⟩ rfl (by decide)).1,
   ((session_expiry_single_renewal ⟨ExtResult.ok true, ExtResult.ok false, ExtResult.ok true,
      0, 1800, 1800⟩ rfl (by decide)).2.2 rfl).1⟩

/-- Element `j` of the unrolled monitoring loop started at iteration index
`i`: the user list and worker cap are the captured values, the delay is
the settings value re-read at that iteration, the auto-survey flag the
import-time binding. -/
theorem monitor_iterations_getElem (env : LoopEnv) (ias : Bool) (ul : List UserCfg)
    (mw : Nat) (n : Nat) : ∀ (i j : Nat), j < n →
    (monitor_iterations env ias ul mw i n)[j]? =
      some ⟨ul, mw, (env.settings_at (i + j)).request_delay, ias⟩ := by
  induction n with
  | zero => intro i j hj; omega
  | succ n ih =>
    intro i j hj
    cases j with
    | zero => simp [monitor_iterations]
    | succ j =>
      have hij : i + 1 + j = i + (j + 1) := by omega
      simpa [monitor_iterations, hij] using ih (i + 1) j (by omega)

/-- C8 counterexample: between iteration 0 and iteration 1 the external
account list grows and the auto-survey flag is switched on, yet
iteration 1 still runs with the start-of-loop account list, the
start-of-loop worker cap, and the import-time auto-survey flag; only the
delay follows the fresh settings. -/
theorem run_monitoring_loop_stale_config_cex :
    (run_monitoring_loop
        ⟨fun i => if i = 0 then [⟨"u1", "p", "s"⟩] else [⟨"u1", "p", "s"⟩, ⟨"u2", "p", "s"⟩],
         fun i => ⟨60 + i, 1800, decide (1 ≤ i)⟩⟩ false 2)[1]? =
      some ⟨[⟨"u1", "p", "s"⟩], 1, 61, false⟩ ∧
    (if (1 : Nat) = 0 then [(⟨"u1", "p", "s"⟩ : UserCfg)]
       else [⟨"u1", "p", "s"⟩, ⟨"u2", "p", "s"⟩]) ≠ [⟨"u1", "p", "s"⟩] ∧
    min 3 (if (1 : Nat) = 0 then [(⟨"u1", "p", "s"⟩ : UserCfg)]
       else [⟨"u1", "p", "s"⟩, ⟨"u2", "p", "s"⟩]).length ≠ 1 ∧
    (decide (1 ≤ (1 : Nat))) ≠ false := by
  decide

/-- C8 amended: only the delay (and the other `load_settings` values) is
re-read at each iteration start; the account list and the worker cap are
the values captured before the loop, and the auto-survey flag is the
import-time binding, for every iteration of the run. -/
theorem run_monitoring_loop_config_reload (env : LoopEnv) (ias : Bool) (n i : Nat)
    (h1 : i < n) (h2 : env.users_at 0 ≠ []) :
    (run_monitoring_loop env ias n)[i]? =
      some ⟨env.users_at 0, min 3 (env.users_at 0).length,
            (env.settings_at i).request_delay, ias⟩ := by
  unfold run_monitoring_loop
  rw [if_neg h2]
  simpa using monitor_iterations_getElem env ias (env.users_at 0)
    (min 3 (env.users_at 0).length) n 0 i h1

/-- Witness for `run_monitoring_loop_config_reload` on a concrete
three-iteration run. -/
theorem run_monitoring_loop_config_reload_witness :
    (2 : Nat) < 3 ∧
    (run_monitoring_loop ⟨fun _ => [⟨"u", "p", "s"⟩], fun i => ⟨30 + i, 900, false⟩⟩
        true 3)[2]? = some ⟨[⟨"u", "p", "s"⟩], 1, 32, true⟩ :=
  ⟨by decide,
   run_monitoring_loop_config_reload
     ⟨fun _ => [⟨"u", "p", "s"⟩], fun i => ⟨30 + i, 900, false⟩⟩ true 3 2
     (by decide) (by decide)⟩

/-- Looking up a key after a Python-dict insert: the inserted key now maps
to the new value; every other key is unaffected. -/
theorem lookupD_dictInsert {α : Type} (k k' : String) (v : α) (d : List (String × α)) :
    lookupD k' (dictInsert k v d) = if k' = k then some v else lookupD k' d := by
  induction d with
  | nil =>
    by_cases h : k' = k
    · subst h; simp [dictInsert, lookupD]
    · simp [dictInsert, lookupD, h, Ne.symm h]
  | cons hd tl ih =>
    obtain ⟨k₀, v₀⟩ := hd
    by_cases h0 : k₀ = k
    · subst h0
      by_cases h : k' = k₀
      · subst h; simp [dictInsert, lookupD]
      · simp [dictInsert, lookupD, h, Ne.symm h]
    · by_cases h : k₀ = k'
      · subst h
        simp [dictInsert, lookupD, h0]
      · simp [dictInsert, lookupD, h0, h, ih]

/-- A Python-dict insert keeps the key list when the key is present and
appends the key otherwise. -/
theorem keys_dictInsert {α : Type} (k : String) (v : α) (d : List (String × α)) :
    (dictInsert k v d).map Prod.fst =
      if k ∈ d.map Prod.fst then d.map Prod.fst else d.map Prod.fst ++ [k] := by
  induction d with
  | nil => simp [dictInsert]
  | cons hd tl ih =>
    obtain ⟨k₀, v₀⟩ := hd
    by_cases h0 : k₀ = k
    · subst h0; simp [dictInsert]
    · by_cases h2 : k ∈ tl.map Prod.fst <;>
        simp [dictInsert, h0, ih, Ne.symm h0, h2]

/-- A Python-dict insert preserves distinctness of the keys. -/
theorem nodup_keys_dictInsert {α : Type} (k : String) (v : α) (d : List (String × α))
    (h : (d.map Prod.fst).Nodup) : ((dictInsert k v d).map Prod.fst).Nodup := by
  rw [keys_dictInsert]
  by_cases hm : k ∈ d.map Prod.fst
  · simpa [hm] using h
  · simp [hm, List.nodup_append, h]

/-- Folding Python-dict inserts over a list keeps the keys distinct. -/
theorem nodup_keys_buildDict_aux (cs : List Course) :
    ∀ d : List (String × Course), (d.map Prod.fst).Nodup →
      ((cs.foldl (fun d c => dictInsert (getName c) c d) d).map Prod.fst).Nodup := by
  induction cs with
  | nil => intro d h; simpa using h
  | cons c cs ih =>
    intro d h
    rw [List.foldl_cons]
    exact ih _ (nodup_keys_dictInsert _ _ _ h)

/-- The course-name dict built by `_compare_courses` has distinct keys. -/
theorem nodup_keys_buildDict (cs : List Course) : ((buildDict cs).map Prod.fst).Nodup :=
  nodup_keys_buildDict_aux cs [] (by simp)

/-- A key is in the dict exactly when looking it up succeeds. -/
theorem lookupD_isSome_iff {α : Type} (k : String) (d : List (String × α)) :
    (lookupD k d).isSome = true ↔ k ∈ d.map Prod.fst := by
  induction d with
  | nil => simp [lookupD]
  | cons hd tl ih =>
    obtain ⟨k₀, v₀⟩ := hd
    by_cases h : k₀ = k
    · subst h; simp [lookupD]
    · simp [lookupD, h, ih, Ne.symm h]

/-- With distinct keys, a pair of the association list is what lookup
returns for its key. -/
theorem lookupD_of_mem_nodup {α : Type} (k : String) (v : α) :
    ∀ d : List (String × α), (d.map Prod.fst).Nodup → (k, v) ∈ d →
      lookupD k d = some v := by
  intro d
  induction d with
  | nil => intro _ hm; simp at hm
  | cons hd tl ih =>
    intro hnd hm
    obtain ⟨k₀, v₀⟩ := hd
    rw [List.map_cons, List.nodup_cons] at hnd
    rcases List.mem_cons.1 hm with h | h
    · cases h
      simp [lookupD]
    · have hne : k₀ ≠ k := by
        intro he
        subst he
        exact hnd.1 (List.mem_map.2 ⟨(k₀, v), h, rfl⟩)
      simp [lookupD, hne, ih hnd.2 h]

/-- Looking up in the dict built from a course list finds the last course
of the list carrying that name (last write wins), and falls back to the
initial accumulator. -/
theorem lookupD_foldl_buildDict (k : String) (cs : List Course) :
    ∀ d : List (String × Course),
      lookupD k (cs.foldl (fun d c => dictInsert (getName c) c d) d) =
        (cs.reverse.find? (fun c => decide (getName c = k))).or (lookupD k d) := by
  induction cs with
  | nil => intro d; simp
  | cons c cs ih =>
    intro d
    rw [List.foldl_cons, ih, lookupD_dictInsert, List.reverse_cons, List.find?_append,
      Option.or_assoc]
    by_cases h : getName c = k
    · simp [List.find?_cons, h]
    · simp [List.find?_cons, h, Ne.symm h]

/-- `buildDict` maps each name to the last course of the list carrying it:
Python dict comprehension semantics. -/
theorem lookupD_buildDict (k : String) (cs : List Course) :
    lookupD k (buildDict cs) = cs.reverse.find? (fun c => decide (getName c = k)) := by
  have h := lookupD_foldl_buildDict k cs []
  simpa [lookupD, Option.or_none] using h

/-- The classification pass over the new-course dict places each of its
keys in exactly one of new/updated/no_change and touches no other name:
the three occurrence counts sum to 1 on the dict's keys and to 0
elsewhere. -/
theorem classify_count (old_dict : List (String × Course)) :
    ∀ d : List (String × Course), (d.map Prod.fst).Nodup → ∀ name : String,
      ((classifyNewCourses old_dict d).1.map NewCourseEntry.name).count name +
      ((classifyNewCourses old_dict d).2.1.map UpdatedEntry.name).count name +
      (classifyNewCourses old_dict d).2.2.count name =
        if name ∈ d.map Prod.fst then 1 else 0 := by
  intro d
  induction d with
  | nil => intro _ name; simp [classifyNewCourses]
  | cons hd tl ih =>
    intro hnd name
    obtain ⟨k, c⟩ := hd
    rw [List.map_cons, List.nodup_cons] at hnd
    obtain ⟨hk, htl⟩ := hnd
    have ihn := ih htl name
    rcases h3 : classifyNewCourses old_dict tl with ⟨ns, us, ncs⟩
    rw [h3] at ihn
    simp only at ihn
    cases hl : lookupD k old_dict with
    | none =>
      have hstep : classifyNewCourses old_dict ((k, c) :: tl) =
          (⟨k, getExams c⟩ :: ns, us, ncs) := by
        simp [classifyNewCourses, h3, hl]
      rw [hstep]
      by_cases hnk : name = k
      · subst hnk
        rw [if_neg hk] at ihn
        simp [List.count_cons]
        omega
      · by_cases hm : name ∈ List.map Prod.fst tl
        · rw [if_pos hm] at ihn
          rw [if_pos (by simp [hm] : name ∈ List.map Prod.fst ((k, c) :: tl))]
          simp [List.count_cons, Ne.symm hnk]
          omega
        · rw [if_neg hm] at ihn
          rw [if_neg (by simp [hnk, hm] : ¬ name ∈ List.map Prod.fst ((k, c) :: tl))]
          simp [List.count_cons, Ne.symm hnk]
          omega
    | some oc =>
      by_cases hex : getExams oc ≠ getExams c
      · have hstep : classifyNewCourses old_dict ((k, c) :: tl) =
            (ns, ⟨k, getExams oc, getExams c,
              compare_exams (getExams oc) (getExams c)⟩ :: us, ncs) := by
          simp [classifyNewCourses, h3, hl, hex]
        rw [hstep]
        by_cases hnk : name = k
        · subst hnk
          rw [if_neg hk] at ihn
          simp [List.count_cons]
          omega
        · by_cases hm : name ∈ List.map Prod.fst tl
          · rw [if_pos hm] at ihn
            rw [if_pos (by simp [hm] : name ∈ List.map Prod.fst ((k, c) :: tl))]
            simp [List.count_cons, Ne.symm hnk]
            omega
          · rw [if_neg hm] at ihn
            rw [if_neg (by simp [hnk, hm] : ¬ name ∈ List.map Prod.fst ((k, c) :: tl))]
            simp [List.count_cons, Ne.symm hnk]
            omega
      · have hstep : classifyNewCourses old_dict ((k, c) :: tl) =
            (ns, us, k :: ncs) := by
          simp [classifyNewCourses, h3, hl, hex]
        rw [hstep]
        by_cases hnk : name = k
        · subst hnk
          rw [if_neg hk] at ihn
          simp [List.count_cons]
          omega
        · by_cases hm : name ∈ List.map Prod.fst tl
          · rw [if_pos hm] at ihn
            rw [if_pos (by simp [hm] : name ∈ List.map Prod.fst ((k, c) :: tl))]
            simp [List.count_cons, Ne.symm hnk]
            omega
          · rw [if_neg hm] at ihn
            rw [if_neg (by simp [hnk, hm] : ¬ name ∈ List.map Prod.fst ((k, c) :: tl))]
            simp [List.count_cons, Ne.symm hnk]
            omega

/-- The central partition fact about `_compare_courses`: each course name
of the old or new dict occurs exactly once across the four classification
lists, and no other name occurs at all. -/
theorem count_classNames (old new : List Course) (name : String) :
    (classNames (compare_courses old new)).count name =
      if name ∈ (buildDict old).map Prod.fst ∨ name ∈ (buildDict new).map Prod.fst
      then 1 else 0 := by
  rcases h3 : classifyNewCourses (buildDict old) (buildDict new) with ⟨ns, us, ncs⟩
  have hsum := classify_count (buildDict old) (buildDict new) (nodup_keys_buildDict new) name
  rw [h3] at hsum
  simp only at hsum
  have hcc : compare_courses old new =
      { new := ns
        updated := us
        removed := ((buildDict old).map Prod.fst).filter
          (fun n => (lookupD n (buildDict new)).isNone)
        no_change := ncs } := by
    simp [compare_courses, h3]
  rw [hcc]
  simp only [classNames, List.count_append]
  by_cases hnew : name ∈ (buildDict new).map Prod.fst
  · rw [if_pos (Or.inr hnew)]
    rw [if_pos hnew] at hsum
    have hz : (((buildDict old).map Prod.fst).filter
        (fun n => (lookupD n (buildDict new)).isNone)).count name = 0 := by
      rw [List.count_eq_zero]
      intro hmem
      have hpred := (List.mem_filter.1 hmem).2
      have hsome := (lookupD_isSome_iff name (buildDict new)).2 hnew
      rw [Option.isNone_iff_eq_none] at hpred
      rw [hpred] at hsome
      simp at hsome
    omega
  · rw [if_neg hnew] at hsum
    have hnone : lookupD name (buildDict new) = none := by
      cases hcase : lookupD name (buildDict new) with
      | none => rfl
      | some v =>
        exact absurd ((lookupD_isSome_iff name (buildDict new)).1 (by simp [hcase])) hnew
    by_cases hold : name ∈ (buildDict old).map Prod.fst
    · rw [if_pos (Or.inl hold)]
      have hcnt : (((buildDict old).map Prod.fst).filter
          (fun n => (lookupD n (buildDict new)).isNone)).count name =
            ((buildDict old).map Prod.fst).count name :=
        List.count_filter (by simp [hnone])
      have hone : ((buildDict old).map Prod.fst).count name = 1 :=
        List.count_eq_one_of_mem (nodup_keys_buildDict old) hold
      omega
    · rw [if_neg (by tauto)]
      have hz : (((buildDict old).map Prod.fst).filter
          (fun n => (lookupD n (buildDict new)).isNone)).count name = 0 := by
        rw [List.count_eq_zero]
        intro hmem
        exact hold (List.mem_filter.1 hmem).1
      omega

/-- C1: the ChangeSet computed by `_compare_courses` is exhaustive and
disjoint — every course name of the old dict or the new dict is placed in
exactly one of the four classes new/updated/removed/no_change (occurrence
count 1 across the four lists), and names outside both dicts are placed
nowhere (count 0). -/
theorem compare_courses_partition (old new : List Course) (name : String) :
    (classNames (compare_courses old new)).count name =
      if name ∈ (buildDict old).map Prod.fst ∨ name ∈ (buildDict new).map Prod.fst
      then 1 else 0 :=
  count_classNames old new name

/-- C10: a course without a `"name"` field is keyed under `""`, so the
dict entry for `""` is the last course of the list whose name defaults to
the empty string (later nameless courses overwrite earlier ones), such an
entry exists whenever some course lacks a name, and any ChangeSet carries
at most one classification entry for the empty course name. -/
theorem nameless_courses_collapse (old new courses : List Course) (c : Course)
    (h1 : c ∈ courses) (h2 : c.name = none) :
    lookupD "" (buildDict courses) =
      courses.reverse.find? (fun x => decide (getName x = "")) ∧
    (courses.reverse.find? (fun x => decide (getName x = ""))).isSome = true ∧
    (classNames (compare_courses old new)).count "" ≤ 1 := by
  refine ⟨lookupD_buildDict "" courses, ?_, ?_⟩
  · rw [List.find?_isSome]
    exact ⟨c, List.mem_reverse.2 h1, by simp [getName, h2]⟩
  · rw [count_classNames]
    split <;> omega

/-- Witness for `nameless_courses_collapse`: two nameless courses. -/
theorem nameless_courses_collapse_witness :
    (⟨none, some ["A:: 1"]⟩ : Course) ∈
      [(⟨none, some ["A:: 1"]⟩ : Course), ⟨none, some ["A:: 2"]⟩] ∧
    lookupD "" (buildDict [(⟨none, some ["A:: 1"]⟩ : Course), ⟨none, some ["A:: 2"]⟩]) =
      [(⟨none, some ["A:: 1"]⟩ : Course), ⟨none, some ["A:: 2"]⟩].reverse.find?
        (fun x => decide (getName x = "")) ∧
    (classNames (compare_courses [] [])).count "" ≤ 1 :=
  ⟨by decide,
   (nameless_courses_collapse [] [] [⟨none, some ["A:: 1"]⟩, ⟨none, some ["A:: 2"]⟩]
      ⟨none, some ["A:: 1"]⟩ (by decide) rfl).1,
   (nameless_courses_collapse [] [] [⟨none, some ["A:: 1"]⟩, ⟨none, some ["A:: 2"]⟩]
      ⟨none, some ["A:: 1"]⟩ (by decide) rfl).2.2⟩

/-- C9 counterexample: after `detect_changes` has persisted snapshot A, a
second `detect_changes` on the same A returns the empty dict — the account
does not appear at all, so its course "C" is not classified unchanged (or
anything else), while the first run did report changes. -/
theorem detect_changes_second_run_no_unchanged_cex :
    (detect_changes [("s1", ⟨some [⟨some "C", some []⟩], some "t"⟩)]
      (detect_changes [("s1", ⟨some [⟨some "C", some []⟩], some "t"⟩)] []).2).1 = [] ∧
    lookupD "s1"
      (detect_changes [("s1", ⟨some [⟨some "C", some []⟩], some "t"⟩)]
        (detect_changes [("s1", ⟨some [⟨some "C", some []⟩], some "t"⟩)] []).2).1 = none ∧
    (detect_changes [("s1", ⟨some [⟨some "C", some []⟩], some "t"⟩)] []).1 ≠ [] := by
  decide

/-- C9 amended: running `detect_changes` twice on the same grades dict
(with distinct student keys, as a Python dict guarantees) makes the second
run return the empty change dict: the comparison is skipped for every
student because the persisted course lists equal the current ones, so no
new/updated/removed course is reported — and no unchanged classification
is produced either. -/
theorem detect_changes_idempotent (current previous : List (String × StudentData))
    (h : (current.map Prod.fst).Nodup) :
    (detect_changes current (detect_changes current previous).2).1 = [] := by
  by_cases hc : current = []
  · subst hc; simp [detect_changes]
  · have h2 : (detect_changes current previous).2 = current := by
      simp [detect_changes, hc]
    rw [h2]
    simp only [detect_changes, if_neg hc]
    rw [List.filterMap_eq_nil_iff]
    intro sd hsd
    obtain ⟨k, v⟩ := sd
    have hl : lookupD k current = some v := lookupD_of_mem_nodup k v current h hsd
    simp [hl]

/-- Witness for `detect_changes_idempotent` on a concrete account. -/
theorem detect_changes_idempotent_witness :
    (([("s1", (⟨some [⟨some "C", some []⟩], some "t"⟩ : StudentData))].map Prod.fst).Nodup) ∧
    (detect_changes [("s1", ⟨some [⟨some "C", some []⟩], some "t"⟩)]
      (detect_changes [("s1", ⟨some [⟨some "C", some []⟩], some "t"⟩)]
        [("s0", ⟨some [], none⟩)]).2).1 = [] :=
  ⟨by decide, detect_changes_idempotent _ _ (by decide)⟩

/-- A guard of the form `if changes_detail.get("..."):` in the source only
skips an empty list, which a map over it would turn into `[]` anyway. -/
theorem if_ne_nil_map {β γ : Type} [DecidableEq β] (l : List β) (f : β → γ) :
    (if l ≠ [] then l.map f else []) = l.map f := by
  by_cases h : l = [] <;> simp [h]

/-- The same guard in front of the flattened updated-course loop. -/
theorem if_ne_nil_flatten {β : Type} [DecidableEq β] (l : List β) (g : β → List Notification) :
    (if l ≠ [] then (l.map g).flatten else []) = (l.map g).flatten := by
  by_cases h : l = [] <;> simp [h]

/-- Filtering notifications built by a constructor of constant type keeps
all of them for that type and none for any other type. -/
theorem length_filter_map_of_type {β : Type} (f : β → Notification) (t : NotifType)
    (l : List β) (h : ∀ b, (f b).type = t) (t' : NotifType) :
    ((l.map f).filter (fun n => decide (n.type = t'))).length =
      if t = t' then l.length else 0 := by
  induction l with
  | nil => simp
  | cons b bs ih =>
    by_cases ht : t = t'
    · subst ht
      simp [List.filter_cons, h b, ih]
    · simp [List.filter_cons, h b, ht, ih]

/-- The per-course updated-notifications block: one grade_update event per
diff line when lines exist, a single generic grade_update event otherwise,
and no event of any other type. -/
theorem length_filter_updatedNotifications (sid : String) (u : UpdatedEntry)
    (t' : NotifType) :
    ((updatedNotifications sid u).filter (fun n => decide (n.type = t'))).length =
      if t' = NotifType.grade_update then
        (if u.changes = [] then 1 else u.changes.length)
      else 0 := by
  by_cases hc : u.changes = []
  · by_cases ht : t' = NotifType.grade_update
    · subst ht
      simp [updatedNotifications, hc, genericUpdateNotification, List.filter_cons]
    · simp [updatedNotifications, hc, genericUpdateNotification, List.filter_cons, ht,
        Ne.symm ht]
  · have h := length_filter_map_of_type (gradeUpdateNotification sid u)
      NotifType.grade_update u.changes (fun _ => rfl) t'
    by_cases ht : t' = NotifType.grade_update
    · subst ht
      simp [updatedNotifications, hc, h]
    · simp [updatedNotifications, hc, h, ht, Ne.symm ht]

/-- Summed over all updated courses of a ChangeSet. -/
theorem length_filter_flatten_updated (sid : String) (us : List UpdatedEntry)
    (t' : NotifType) :
    ((us.map (updatedNotifications sid)).flatten.filter
        (fun n => decide (n.type = t'))).length =
      if t' = NotifType.grade_update then
        (us.map (fun u => if u.changes = [] then 1 else u.changes.length)).sum
      else 0 := by
  induction us with
  | nil => by_cases ht : t' = NotifType.grade_update <;> simp [ht]
  | cons u us ih =>
    simp only [List.map_cons, List.flatten_cons, List.filter_append, List.length_append, ih,
      length_filter_updatedNotifications, List.sum_cons]
    by_cases ht : t' = NotifType.grade_update <;> simp [ht]

/-- Size of the updated-notifications block for one course. -/
theorem length_updatedNotifications (sid : String) (u : UpdatedEntry) :
    (updatedNotifications sid u).length =
      if u.changes = [] then 1 else u.changes.length := by
  by_cases hc : u.changes = [] <;> simp [updatedNotifications, hc]

/-- Every notification of the updated-course block is a warning-severity
grade_update event. -/
theorem mem_updatedNotifications_type (sid : String) (u : UpdatedEntry)
    (n : Notification) (h : n ∈ updatedNotifications sid u) :
    n.type = NotifType.grade_update ∧ n.severity = Severity.warning := by
  by_cases hc : u.changes = []
  · simp [updatedNotifications, hc] at h
    subst h
    exact ⟨rfl, rfl⟩
  · simp [updatedNotifications, hc] at h
    obtain ⟨ch, _, rfl⟩ := h
    exact ⟨rfl, rfl⟩

/-- C3: for one ChangeSet, `get_notifications` emits exactly one
info-severity new_course event per new course, exactly one warning-severity
grade_update event per diff line of each updated course — or exactly one
generic grade_update event when an updated course has no diff lines —
exactly one info-severity course_removed event per removed name, and
nothing else (the total length is the sum of the three counts and every
emitted event has one of the three types with the stated severity). -/
theorem get_notifications_event_counts (sid : String) (d : Changes) :
    ((notificationsFor sid d).filter
        (fun n => decide (n.type = NotifType.new_course))).length = d.new.length ∧
    ((notificationsFor sid d).filter
        (fun n => decide (n.type = NotifType.grade_update))).length =
      (d.updated.map (fun u => if u.changes = [] then 1 else u.changes.length)).sum ∧
    ((notificationsFor sid d).filter
        (fun n => decide (n.type = NotifType.course_removed))).length = d.removed.length ∧
    (notificationsFor sid d).length =
      d.new.length +
        (d.updated.map (fun u => if u.changes = [] then 1 else u.changes.length)).sum +
        d.removed.length ∧
    ∀ n ∈ notificationsFor sid d,
      (n.type = NotifType.new_course → n.severity = Severity.info) ∧
      (n.type = NotifType.grade_update → n.severity = Severity.warning) ∧
      (n.type = NotifType.course_removed → n.severity = Severity.info) ∧
      (n.type = NotifType.new_course ∨ n.type = NotifType.grade_update ∨
        n.type = NotifType.course_removed) := by
  have hnf : notificationsFor sid d =
      d.new.map (newCourseNotification sid) ++
      (d.updated.map (updatedNotifications sid)).flatten ++
      d.removed.map (removedNotification sid) := by
    rw [notificationsFor, if_ne_nil_map, if_ne_nil_flatten, if_ne_nil_map]
  rw [hnf]
  refine ⟨?_, ?_, ?_, ?_, ?_⟩
  · rw [List.filter_append, List.filter_append, List.length_append, List.length_append,
      length_filter_map_of_type (newCourseNotification sid) NotifType.new_course d.new
        (fun _ => rfl),
      length_filter_flatten_updated,
      length_filter_map_of_type (removedNotification sid) NotifType.course_removed d.removed
        (fun _ => rfl)]
    simp
  · rw [List.filter_append, List.filter_append, List.length_append, List.length_append,
      length_filter_map_of_type (newCourseNotification sid) NotifType.new_course d.new
        (fun _ => rfl),
      length_filter_flatten_updated,
      length_filter_map_of_type (removedNotification sid) NotifType.course_removed d.removed
        (fun _ => rfl)]
    simp
  · rw [List.filter_append, List.filter_append, List.length_append, List.length_append,
      length_filter_map_of_type (newCourseNotification sid) NotifType.new_course d.new
        (fun _ => rfl),
      length_filter_flatten_updated,
      length_filter_map_of_type (removedNotification sid) NotifType.course_removed d.removed
        (fun _ => rfl)]
    simp
  · simp only [List.length_append, List.length_map, List.length_flatten, List.map_map]
    have hfun : (List.length ∘ updatedNotifications sid) =
        fun u => if u.changes = [] then (1 : Nat) else u.changes.length :=
      funext (fun u => length_updatedNotifications sid u)
    rw [hfun]
  · intro n hn
    simp only [List.mem_append] at hn
    rcases hn with (h | h) | h
    · obtain ⟨x, _, rfl⟩ := List.mem_map.1 h
      refine ⟨fun _ => rfl, fun hh => ?_, fun hh => ?_, Or.inl rfl⟩ <;>
        simp [newCourseNotification] at hh
    · rw [List.mem_flatten] at h
      obtain ⟨l, hl, hnl⟩ := h
      obtain ⟨u, _, rfl⟩ := List.mem_map.1 hl
      have ht := mem_updatedNotifications_type sid u n hnl
      refine ⟨fun hh => ?_, fun _ => ht.2, fun hh => ?_, Or.inr (Or.inl ht.1)⟩ <;>
        (rw [ht.1] at hh; simp at hh)
    · obtain ⟨x, _, rfl⟩ := List.mem_map.1 h
      refine ⟨fun hh => ?_, fun hh => ?_, fun _ => rfl, Or.inr (Or.inr rfl)⟩ <;>
        simp [removedNotification] at hh

/-- Witness for `get_notifications_event_counts` on a ChangeSet with one
new course, one updated course with one diff line, one updated course with
none, one removed course and one unchanged course. -/
theorem get_notifications_event_counts_witness :
    ((notificationsFor "s" ⟨[⟨"N", []⟩], [⟨"U", [], [], ["line"]⟩, ⟨"V", [], [], []⟩],
        ["R"], ["S"]⟩).filter
      (fun n => decide (n.type = NotifType.new_course))).length = 1 ∧
    (notificationsFor "s" ⟨[⟨"N", []⟩], [⟨"U", [], [], ["line"]⟩, ⟨"V", [], [], []⟩],
        ["R"], ["S"]⟩).length = 4 ∧
    (genericUpdateNotification "s" ⟨"V", [], [], []⟩).severity = Severity.warning :=
  ⟨(get_notifications_event_counts "s"
      ⟨[⟨"N", []⟩], [⟨"U", [], [], ["line"]⟩, ⟨"V", [], [], []⟩], ["R"], ["S"]⟩).1,
   (get_notifications_event_counts "s"
      ⟨[⟨"N", []⟩], [⟨"U", [], [], ["line"]⟩, ⟨"V", [], [], []⟩], ["R"], ["S"]⟩).2.2.2.1,
   ((get_notifications_event_counts "s"
      ⟨[⟨"N", []⟩], [⟨"U", [], [], ["line"]⟩, ⟨"V", [], [], []⟩], ["R"], ["S"]⟩).2.2.2.2
      (genericUpdateNotification "s" ⟨"V", [], [], []⟩) (by decide)).2.1 rfl⟩

end UbysBot
